import Mathlib

/-!
Verification of the user-management core of `fastapi_user_hexagonal`.

The embedding follows the Python source:
* `src/domain/entities/user.py` — the `User` entity, its constructor and the
  email-shape check;
* `src/application/usecases/user_usecase.py` — the create-user orchestration;
* `src/application/dtos/user_dto.py` — the pydantic `CreateUserRequest`.

Ambient effects are passed explicitly: the randomness consumed by
`uuid.uuid4()` is a `seed : Nat`, and the two `datetime.utcnow()` reads made
by the constructor are clock values `t1 t2 : Nat` (timestamps are modelled as
naturals, i.e. ticks of a monotone wall clock).
-/

/-- One lowercase hexadecimal digit, as Python renders them: 0-9 then a-f. -/
def hexDigit (n : Nat) : Char :=
  if n < 10 then Char.ofNat (48 + n) else Char.ofNat (97 + (n - 10))

/-- The `k` low hexadecimal digits of `n`, most significant first. -/
def hexChars : Nat → Nat → List Char
  | 0, _ => []
  | k + 1, n => hexChars k (n / 16) ++ [hexDigit (n % 16)]

/-- Model of Python `str(uuid.uuid4())`: the canonical 8-4-4-4-12
lowercase-hexadecimal rendering of a 128-bit random value.  The randomness
source is the explicit `seed` input. -/
def uuid4 (seed : Nat) : String :=
  String.mk (hexChars 8 (seed / 2 ^ 96 % 2 ^ 32) ++ '-' ::
    (hexChars 4 (seed / 2 ^ 80 % 2 ^ 16) ++ '-' ::
      (hexChars 4 (seed / 2 ^ 64 % 2 ^ 16) ++ '-' ::
        (hexChars 4 (seed / 2 ^ 48 % 2 ^ 16) ++ '-' ::
          hexChars 12 (seed % 2 ^ 48)))))

/-- Python `x or y` where `x : Optional[str]`: the falsy strings are `None`
and the empty string, so `y` is taken exactly in those two cases. -/
def pyOrString (x : Option String) (y : String) : String :=
  match x with
  | none => y
  | some s => if s = "" then y else s

/-- Python `x or y` where `x : Optional[datetime]`: a `datetime` object is
always truthy, so only `None` falls through to `y`. -/
def pyOrDatetime (x : Option Nat) (y : Nat) : Nat :=
  match x with
  | none => y
  | some t => t

/-- The `User` entity of `src/domain/entities/user.py` (its instance
attributes; the unused class attribute `id` plays no role in any behavior). -/
structure User where
  user_id : String
  name : String
  email : String
  created_at : Nat
  updated_at : Nat
deriving DecidableEq, Repr

/-- `User.__init__`.  `seed` feeds `uuid.uuid4()`; `t1` and `t2` are the two
successive `datetime.utcnow()` readings taken for `created_at` and
`updated_at`.  The remaining parameters are the Python ones in order. -/
def User.init (seed t1 t2 : Nat) (user_id : Option String) (name : String)
    (email : String) (created_at : Option Nat) (updated_at : Option Nat) :
    User :=
  { user_id := pyOrString user_id (uuid4 seed)
    name := name
    email := email
    created_at := pyOrDatetime created_at t1
    updated_at := pyOrDatetime updated_at t2 }

/-- Python `str.split(sep)` for a one-character separator, on character
lists: splits at every occurrence of `sep`, keeping empty segments, exactly
as `"a@@b".split("@") == ["a", "", "b"]`.  `acc` holds the characters of the
current segment in reverse. -/
def pySplitAux (sep : Char) : List Char → List Char → List (List Char)
  | [], acc => [acc.reverse]
  | x :: xs, acc =>
    if x = sep then acc.reverse :: pySplitAux sep xs []
    else pySplitAux sep xs (x :: acc)

/-- Python `s.split(sep)` (one-character separator). -/
def pySplit (sep : Char) (s : List Char) : List (List Char) :=
  pySplitAux sep s []

/-- `User.is_valid_email`:
`return "@" in self.email and "." in self.email.split("@")[1]`.
The `and` short-circuits, so the index-1 access is reached only when the
email contains an at-sign, in which case the split has at least two
segments; `getD` with default `[]` is therefore an exact model. -/
def User.is_valid_email (u : User) : Bool :=
  u.email.data.contains '@' && ((pySplit '@' u.email.data).getD 1 []).contains '.'

/-- The call `u.is_valid_email()` viewed as a state transformer: the method
body is a single `return` expression with no assignment to `self`, so the
post-state is the receiver unchanged. -/
def User.is_valid_email_call (u : User) : Bool × User :=
  (u.is_valid_email, u)

/-- The email predicate as the specification words it: the email contains
an at-sign and the whole substring following the first at-sign contains a
dot.  Written independently of `pySplit`, for comparison with the code. -/
def email_after_first_at (e : String) : Bool :=
  e.data.contains '@' &&
    ((e.data.dropWhile (fun y => y != '@')).tail).contains '.'

/-- The corrected reading of the heuristic implemented by the code: the
email contains an at-sign and the segment strictly between the first
at-sign and the next at-sign (up to the end of the string when there is no
second at-sign) contains a dot. -/
def email_between_ats (e : String) : Bool :=
  e.data.contains '@' &&
    (((e.data.dropWhile (fun y => y != '@')).tail).takeWhile
      (fun y => y != '@')).contains '.'

/-- The Python exceptions that the orchestration can raise. -/
inductive PyError where
  | valueError (msg : String)
  | typeError (msg : String)
  | attributeError (msg : String)
deriving DecidableEq, Repr

/-- The creation-request value: fields `name`, `email`, `age` as read by the
orchestration (the shape shared by the pydantic `CreateUserRequest` and the
test double `DummyRequest`).  Python integers are unbounded, hence `Int`. -/
structure CreateUserRequest where
  name : String
  email : String
  age : Int
deriving DecidableEq, Repr

/-- `UserUseCase.create_user` with the duplicate-email check abstracted as
the parameter `existing_user` (in the source the check is the hardcoded
local `existing_user = True`, an acknowledged placeholder for a
collaborator report).  The request is `Option`al to model Python `None`.
When the check is falsy the source executes
`User(name=request.name, email=request.email, age=request.age)`:
the three attribute reads are evaluated first (an `AttributeError` when the
request is `None`), and then the call itself raises a `TypeError`, because
`User.__init__` has parameters `user_id`, `name`, `email`, `created_at`,
`updated_at` only — there is no `age` parameter and no keyword catch-all —
so no `User` is ever constructed on this path. -/
def UserUseCase.create_user_with_check (existing_user : Bool)
    (request : Option CreateUserRequest) : Except PyError User :=
  if existing_user then
    Except.error (PyError.valueError "Email já está em uso")
  else
    match request with
    | none =>
      Except.error
        (PyError.attributeError "NoneType object has no attribute name")
    | some _ =>
      Except.error
        (PyError.typeError "User.init got an unexpected keyword argument age")

/-- `UserUseCase.create_user` as written in the source: the local
`existing_user` is the literal `True`. -/
def UserUseCase.create_user (request : Option CreateUserRequest) :
    Except PyError User :=
  UserUseCase.create_user_with_check true request

/-- pydantic validation of `CreateUserRequest`
(`src/application/dtos/user_dto.py`): `name : str` with `min_length=1`,
`email : EmailStr` (that syntactic check lives in an external package and is
abstracted as the `email_ok` parameter), `age : int` with `ge=0` and default
`0` when the field is omitted.  pydantic reports one error per invalid
field, in declaration order. -/
def CreateUserRequest.validate (email_ok : String → Bool) (name : String)
    (email : String) (age : Option Int) :
    Except (List String) CreateUserRequest :=
  match (if name.length < 1 then ["string_too_short"] else []) ++
      ((if email_ok email then [] else ["value is not a valid email address"]) ++
        (if age.getD 0 < 0 then ["greater_than_equal"] else [])) with
  | [] => Except.ok ⟨name, email, age.getD 0⟩
  | e :: es => Except.error (e :: es)

/- ------------------------------------------------------------------ -/
/- Theorems.                                                           -/
/- ------------------------------------------------------------------ -/

theorem hexChars_length (k : Nat) : ∀ n : Nat, (hexChars k n).length = k := by
  induction k with
  | zero => intro n; rfl
  | succ k ih => intro n; simp [hexChars, ih]

theorem uuid4_length (seed : Nat) : (uuid4 seed).length = 36 := by
  simp [uuid4, String.length, hexChars_length]

theorem uuid4_ne_empty (seed : Nat) : uuid4 seed ≠ "" := by
  intro h
  have h36 := uuid4_length seed
  rw [h] at h36
  simp [String.length] at h36

theorem pySplitAux_of_mem (sep : Char) :
    ∀ (l acc : List Char), sep ∈ l →
      pySplitAux sep l acc =
        (acc.reverse ++ l.takeWhile (fun y => y != sep)) ::
          pySplit sep ((l.dropWhile (fun y => y != sep)).tail)
  | [], _, h => absurd h (List.not_mem_nil sep)
  | x :: xs, acc, h => by
    by_cases hx : x = sep
    · subst hx
      simp [pySplitAux, pySplit, List.takeWhile_cons, List.dropWhile_cons]
    · have hmem : sep ∈ xs := by
        rcases List.mem_cons.mp h with h1 | h1
        · exact absurd h1.symm hx
        · exact h1
      have hb : (x != sep) = true := bne_iff_ne.mpr hx
      simp only [pySplitAux, if_neg hx]
      rw [pySplitAux_of_mem sep xs (x :: acc) hmem]
      simp [List.takeWhile_cons, List.dropWhile_cons, hb]

theorem pySplitAux_getD_zero (sep : Char) :
    ∀ (l acc : List Char),
      (pySplitAux sep l acc).getD 0 [] =
        acc.reverse ++ l.takeWhile (fun y => y != sep)
  | [], acc => by simp [pySplitAux]
  | x :: xs, acc => by
    by_cases hx : x = sep
    · subst hx
      simp [pySplitAux, List.takeWhile_cons]
    · have hb : (x != sep) = true := bne_iff_ne.mpr hx
      simp only [pySplitAux, if_neg hx]
      rw [pySplitAux_getD_zero sep xs (x :: acc)]
      simp [List.takeWhile_cons, hb]

/-- C2 counterexample: on the email `"a@b@c.d"` the code returns `false`
although the string contains an at-sign and the substring following the
first at-sign (namely `"b@c.d"`) contains a dot: Python `split("@")[1]` is
only the segment between the first two at-signs. -/
theorem C2_counterexample :
    email_after_first_at "a@b@c.d" = true ∧
      (User.mk "i" "n" "a@b@c.d" 0 0).is_valid_email = false := by
  constructor
  · rfl
  · rfl

/-- C2 (amended): `is_valid_email` returns true iff the email contains an
at-sign and the segment strictly between the first at-sign and the next
at-sign (to the end of the string when there is no second one) contains a
dot; in particular the four examples of the claim evaluate as stated. -/
theorem C2_email_heuristic :
    (∀ u : User, u.is_valid_email = email_between_ats u.email) ∧
      (User.mk "i" "n" "a@b." 0 0).is_valid_email = true ∧
      (User.mk "i" "n" "maria@example.com" 0 0).is_valid_email = true ∧
      (User.mk "i" "n" "a@b" 0 0).is_valid_email = false ∧
      (User.mk "i" "n" "ab.com" 0 0).is_valid_email = false := by
  refine ⟨?_, rfl, rfl, rfl, rfl⟩
  intro u
  by_cases h : '@' ∈ u.email.data
  · rw [User.is_valid_email, email_between_ats, pySplit,
      pySplitAux_of_mem '@' u.email.data [] h, List.getD_cons_succ, pySplit,
      pySplitAux_getD_zero '@']
    simp
  · have hc : u.email.data.contains '@' = false := by
      simp [List.contains, h]
    rw [User.is_valid_email, email_between_ats, hc]
    simp

/-- C9: the email check is pure: the method call leaves the receiver
unchanged, and its boolean result is a function of the `email` field
alone. -/
theorem C9_is_valid_email_pure (u v : User) (h : u.email = v.email) :
    (u.is_valid_email_call).2 = u ∧
      (u.is_valid_email_call).1 = (v.is_valid_email_call).1 := by
  refine ⟨rfl, ?_⟩
  simp [User.is_valid_email_call, User.is_valid_email, h]

theorem C9_is_valid_email_pure_witness :
    ((User.mk "a" "n1" "x@y.z" 0 0).is_valid_email_call).2 =
        User.mk "a" "n1" "x@y.z" 0 0 ∧
      ((User.mk "a" "n1" "x@y.z" 0 0).is_valid_email_call).1 =
        ((User.mk "b" "n2" "x@y.z" 1 1).is_valid_email_call).1 :=
  C9_is_valid_email_pure (User.mk "a" "n1" "x@y.z" 0 0)
    (User.mk "b" "n2" "x@y.z" 1 1) rfl

/-- C4: every construction yields a non-empty `user_id`; when the supplied
identifier is omitted (`None`) or empty, the freshly generated UUID string
is used instead. -/
theorem C4_user_id_nonempty (seed t1 t2 : Nat) (uid : Option String)
    (name email : String) (ca ua : Option Nat) :
    (User.init seed t1 t2 uid name email ca ua).user_id ≠ "" ∧
      ((uid = none ∨ uid = some "") →
        (User.init seed t1 t2 uid name email ca ua).user_id = uuid4 seed) := by
  constructor
  · match uid with
    | none => simpa [User.init, pyOrString] using uuid4_ne_empty seed
    | some s =>
      by_cases hs : s = ""
      · simpa [User.init, pyOrString, hs] using uuid4_ne_empty seed
      · simp [User.init, pyOrString, hs]
  · rintro (h | h) <;> simp [User.init, pyOrString, h]

theorem C4_user_id_nonempty_witness :
    (User.init 7 0 0 none "Leo" "leo@example.com" none none).user_id ≠ "" ∧
      (User.init 7 0 0 none "Leo" "leo@example.com" none none).user_id =
        uuid4 7 :=
  ⟨(C4_user_id_nonempty 7 0 0 none "Leo" "leo@example.com" none none).1,
   (C4_user_id_nonempty 7 0 0 none "Leo" "leo@example.com" none none).2
     (Or.inl rfl)⟩

/-- C5: constructing with an explicit non-empty identifier yields an entity
whose `user_id` is exactly that identifier. -/
theorem C5_id_passthrough (seed t1 t2 : Nat) (s name email : String)
    (ca ua : Option Nat) (h : s ≠ "") :
    (User.init seed t1 t2 (some s) name email ca ua).user_id = s := by
  simp [User.init, pyOrString, h]

theorem C5_id_passthrough_witness :
    (User.init 0 0 0 (some "123") "Ana" "ana@example.com" none none).user_id =
      "123" :=
  C5_id_passthrough 0 0 0 "123" "Ana" "ana@example.com" none none (by decide)

/-- C6: with no explicit timestamps, `created_at` and `updated_at` are the
two successive clock reads, hence both lie in `[before, after]` for wall
clock readings taken immediately around the call of a monotone clock. -/
theorem C6_timestamps_bounded (seed t1 t2 before after : Nat)
    (name email : String) (h1 : before ≤ t1) (h2 : t1 ≤ t2)
    (h3 : t2 ≤ after) :
    (before ≤ (User.init seed t1 t2 none name email none none).created_at ∧
      (User.init seed t1 t2 none name email none none).created_at ≤ after) ∧
      (before ≤ (User.init seed t1 t2 none name email none none).updated_at ∧
        (User.init seed t1 t2 none name email none none).updated_at ≤ after) := by
  refine ⟨⟨?_, ?_⟩, ?_, ?_⟩ <;> simp [User.init, pyOrDatetime] <;> omega

theorem C6_timestamps_bounded_witness :
    (0 ≤ (User.init 5 1 2 none "Leo" "leo@example.com" none none).created_at ∧
      (User.init 5 1 2 none "Leo" "leo@example.com" none none).created_at ≤ 3) ∧
      (0 ≤ (User.init 5 1 2 none "Leo" "leo@example.com" none none).updated_at ∧
        (User.init 5 1 2 none "Leo" "leo@example.com" none none).updated_at ≤ 3) :=
  C6_timestamps_bounded 5 1 2 0 3 "Leo" "leo@example.com" (by decide)
    (by decide) (by decide)

/-- C7: construction is total and unvalidated: every combination of
arguments (including empty or malformed name and email) yields a `User`
whose fields are exactly the prescribed values, with no error path and no
field check. -/
theorem C7_construction_total (seed t1 t2 : Nat) (uid : Option String)
    (name email : String) (ca ua : Option Nat) :
    (User.init seed t1 t2 uid name email ca ua).name = name ∧
      (User.init seed t1 t2 uid name email ca ua).email = email ∧
      (User.init seed t1 t2 uid name email ca ua).user_id =
        pyOrString uid (uuid4 seed) ∧
      (User.init seed t1 t2 uid name email ca ua).created_at =
        pyOrDatetime ca t1 ∧
      (User.init seed t1 t2 uid name email ca ua).updated_at =
        pyOrDatetime ua t2 :=
  ⟨rfl, rfl, rfl, rfl, rfl⟩

/-- C1 counterexample: at the sample request the orchestration raises a
`ValueError` carrying the fixed Portuguese message "Email já está em uso",
which is not the message "email already in use" stated by the claim. -/
theorem C1_counterexample :
    UserUseCase.create_user (some ⟨"Leo", "leo@gmail.com", 30⟩) =
        Except.error (PyError.valueError "Email já está em uso") ∧
      "Email já está em uso" ≠ "email already in use" :=
  ⟨rfl, by decide⟩

/-- C1 (amended): for every request value (`None` included) the reference
orchestration raises the `ValueError` carrying the fixed message
"Email já está em uso" (Portuguese for: email already in use) — in
particular it always takes the failure branch and never returns a
`User`. -/
theorem C1_reference_always_fails (request : Option CreateUserRequest) :
    UserUseCase.create_user request =
      Except.error (PyError.valueError "Email já está em uso") :=
  rfl

/-- C3, behavior of the code at the failing input: with the duplicate-email
check reporting the email as not in use, the orchestration does not return
a `User` built from the request; Python raises a `TypeError`, because the
source passes the keyword argument `age` to the entity constructor, which
has no such parameter. -/
theorem C3_dead_branch_type_error :
    UserUseCase.create_user_with_check false
        (some ⟨"Leo", "leo@gmail.com", 30⟩) =
      Except.error
        (PyError.typeError "User.init got an unexpected keyword argument age") :=
  rfl

/-- C10: the outcome of the reference `create_user` is independent of the
request: any two request values (`None` included) produce identical
outcomes, namely the same error with the same message. -/
theorem C10_request_independence (r1 r2 : Option CreateUserRequest) :
    UserUseCase.create_user r1 = UserUseCase.create_user r2 ∧
      UserUseCase.create_user r1 =
        Except.error (PyError.valueError "Email já está em uso") :=
  ⟨rfl, rfl⟩

/-- C8: pydantic construction of `CreateUserRequest` succeeds only when the
name is non-empty and the resulting age is a non-negative integer; an
omitted age defaults to `0`; a zero-length name or a negative age is
rejected with a validation error.  The `EmailStr` check is abstracted by
the `email_ok` parameter and the properties hold for every such check. -/
theorem C8_request_validation (email_ok : String → Bool)
    (name email : String) (age : Option Int) :
    (∀ r : CreateUserRequest,
        CreateUserRequest.validate email_ok name email age = Except.ok r →
          1 ≤ name.length ∧ 0 ≤ r.age ∧ (age = none → r.age = 0)) ∧
      (name.length = 0 →
        ∀ r : CreateUserRequest,
          CreateUserRequest.validate email_ok name email age ≠ Except.ok r) ∧
      (∀ a : Int, age = some a → a < 0 →
        ∀ r : CreateUserRequest,
          CreateUserRequest.validate email_ok name email age ≠ Except.ok r) := by
  refine ⟨?_, ?_, ?_⟩
  · intro r hr
    unfold CreateUserRequest.validate at hr
    by_cases h1 : name.length < 1
    · simp [h1] at hr
    · by_cases h2 : email_ok email
      · by_cases h3 : age.getD 0 < 0
        · simp [h1, h2, h3] at hr
        · simp [h1, h2, h3] at hr
          refine ⟨by omega, ?_, ?_⟩
          · rw [← hr]
            show (0 : Int) ≤ age.getD 0
            omega
          · intro hnone
            rw [← hr, hnone]
            rfl
      · simp [h1, h2] at hr
  · intro h0 r hr
    unfold CreateUserRequest.validate at hr
    have h1 : name.length < 1 := by omega
    simp [h1] at hr
  · intro a ha hneg r hr
    unfold CreateUserRequest.validate at hr
    have h3 : age.getD 0 < 0 := by
      rw [ha]
      simpa using hneg
    by_cases h1 : name.length < 1
    · simp [h1] at hr
    · by_cases h2 : email_ok email <;> simp [h1, h2, h3] at hr

theorem C8_request_validation_witness :
    1 ≤ ("Leo" : String).length ∧
      0 ≤ (CreateUserRequest.mk "Leo" "leo@gmail.com" 0).age ∧
      ((none : Option Int) = none →
        (CreateUserRequest.mk "Leo" "leo@gmail.com" 0).age = 0) :=
  (C8_request_validation (fun _ => true) "Leo" "leo@gmail.com" none).1
    (CreateUserRequest.mk "Leo" "leo@gmail.com" 0) rfl
